import Mathlib

set_option maxRecDepth 8000

namespace FakeDetector

/-! Shallow embedding of the jcuberogit/fakedetector repository.

The development models, directly from the sources:
  - the PostgreSQL schema of the fraud-ring tables (src/src/db/schema.sql);
  - the UniversalShield scam detector (src/extensions/src/detector.js together
    with its pattern tables);
  - the PRO-tier feature extractor and cloud analyzer
    (src/extensions/src/cloudAnalyzer.js);
  - the ParadigmStore fraud-detection SDK client (src/unnamed/part_013);
and, where the repository's fraud-ring engine itself (fraud_ring_detector.py)
is not part of the source tree, models declared from the specification text. -/

namespace Js

/-- Whitespace class used by the JavaScript regexes and by trim, restricted to the
characters that can occur in the code base's inputs. -/
def isSpace (c : Char) : Bool :=
  c = ' ' || c = '\t' || c = '\n' || c = '\r' || c = '\u000b' || c = '\u000c' || c = '\u00A0'

/-- JavaScript String.prototype.toLowerCase (ASCII case folding, which covers every
pattern in the code base). -/
def toLower (s : String) : String := ⟨s.toList.map Char.toLower⟩

/-- Helper of includes: does pat occur as a contiguous sublist of s. -/
def infixAux (pat : List Char) : List Char → Bool
  | [] => pat.isEmpty
  | s@(_ :: s2) => pat.isPrefixOf s || infixAux pat s2

/-- JavaScript String.prototype.includes: substring containment. -/
def includes (s pat : String) : Bool := infixAux pat.toList s.toList

/-- JavaScript String.prototype.trim. -/
def trim (s : String) : String :=
  ⟨((s.toList.dropWhile isSpace).reverse.dropWhile isSpace).reverse⟩

/-- Helper of splitRuns: drop empty pieces except a final one. -/
def dropInnerNilsTail : List (List Char) → List (List Char)
  | [] => []
  | [x] => [x]
  | x :: xs => if x = [] then dropInnerNilsTail xs else x :: dropInnerNilsTail xs

/-- Helper of splitRuns: drop empty pieces except the first and the last. -/
def dropInnerNils : List (List Char) → List (List Char)
  | [] => []
  | x :: xs => x :: dropInnerNilsTail xs

/-- JavaScript String.prototype.split with a one-class-plus regex such as /\s+/ or
/[.!?]+/: pieces between maximal separator runs, keeping an empty piece at either
end when the string starts or ends with a separator. -/
def splitRuns (p : Char → Bool) (s : String) : List (List Char) :=
  dropInnerNils (s.toList.splitOnP p)

/-- Helper of countRuns, tracking whether the previous character was in the class. -/
def countRunsAux (p : Char → Bool) : Bool → List Char → Nat
  | _, [] => 0
  | inRun, c :: s =>
      if p c then (if inRun then 0 else 1) + countRunsAux p true s
      else countRunsAux p false s

/-- Number of maximal runs of characters of the class p, i.e. the match count of a
global one-class-plus regex such as /\d+/g. -/
def countRuns (p : Char → Bool) (s : List Char) : Nat := countRunsAux p false s

/-- Number of characters of the class p, i.e. the match count of a global
single-character regex such as /!/g. -/
def countP (p : Char → Bool) (s : List Char) : Nat := (s.filter p).length

end Js

/-- Abstract syntax for exactly the regular-expression constructs appearing in the
regex literals of detector.js and cloudAnalyzer.js: single-character classes,
concatenation, alternation, star over a class (giving word-star and plus forms),
the end-of-input anchor and negative lookahead. -/
inductive RE where
  | eps : RE
  | tok : (Char → Bool) → RE
  | seq : RE → RE → RE
  | alt : RE → RE → RE
  | starTok : (Char → Bool) → RE
  | eol : RE
  | notFollowed : RE → RE

/-- Backtracking matcher in continuation-passing style: matchHere fuel re s k
decides whether some prefix of s matches re with the continuation k accepting
the rest.  The disjunction over all decompositions gives exactly the
existential success semantics of RegExp.prototype.test, including with
negative lookahead.  The fuel argument only makes the recursion structural
(so that concrete runs reduce inside the kernel): every recursive call either
shrinks the pattern or keeps the pattern and shrinks the input, so a chain of
calls is never longer than the pattern size plus s.length, and the initial
fuel matchAt supplies is never exhausted. -/
def matchHere : Nat → RE → List Char → (List Char → Bool) → Bool
  | 0, _, _, _ => false
  | _ + 1, .eps, s, k => k s
  | _ + 1, .tok _, [], _ => false
  | _ + 1, .tok p, c :: s, k => p c && k s
  | fuel + 1, .seq a b, s, k => matchHere fuel a s (fun s2 => matchHere fuel b s2 k)
  | fuel + 1, .alt a b, s, k => matchHere fuel a s k || matchHere fuel b s k
  | fuel + 1, .starTok p, s, k =>
      k s ||
        (match s with
          | [] => false
          | c :: s2 => p c && matchHere fuel (.starTok p) s2 k)
  | _ + 1, .eol, s, k => s.isEmpty && k s
  | fuel + 1, .notFollowed r, s, k => !(matchHere fuel r s (fun _ => true)) && k s

/-- Structural size of a pattern, bounding the pattern-shrinking steps of the
matcher. -/
def reSize : RE → Nat
  | .eps => 1
  | .tok _ => 1
  | .seq a b => reSize a + reSize b + 1
  | .alt a b => reSize a + reSize b + 1
  | .starTok _ => 1
  | .eol => 1
  | .notFollowed r => reSize r + 1

/-- Does re match a prefix of s. -/
def matchAt (re : RE) (s : List Char) : Bool :=
  matchHere (reSize re + s.length + 1) re s (fun _ => true)

/-- Search for a match of re starting at any position of s. -/
def searchFrom (re : RE) : List Char → Bool
  | [] => matchAt re []
  | s@(_ :: s2) => matchAt re s || searchFrom re s2

/-- RegExp.prototype.test on a list of characters. -/
def rtest (re : RE) (s : List Char) : Bool := searchFrom re s

/-- Number of positions of s at which re matches; for the patterns this is applied
to (which cannot overlap themselves) it equals the global match count. -/
def countMatchPositions (re : RE) : List Char → Nat
  | [] => 0
  | s@(_ :: s2) => (if matchAt re s then 1 else 0) + countMatchPositions re s2

/-- Literal string pattern. -/
def lit (w : String) : RE := w.toList.foldr (fun c r => .seq (.tok (fun x => x = c)) r) .eps

/-- Character class pattern. -/
def cls (cs : List Char) : RE := .tok (fun c => cs.contains c)

/-- Alternation of a non-empty list of patterns (an empty list never matches). -/
def alts : List RE → RE
  | [] => .tok (fun _ => false)
  | [r] => r
  | r :: rs => .alt r (alts rs)

/-- Concatenation of a list of patterns. -/
def seqs (rs : List RE) : RE := rs.foldr .seq .eps

/-- Zero-or-one occurrence. -/
def ropt (r : RE) : RE := .alt r .eps

/-- The regex \s* . -/
def wsStar : RE := .starTok Js.isSpace

/-- The regex \s+ . -/
def wsPlus : RE := .seq (.tok Js.isSpace) wsStar

/-- The regex \d+ . -/
def digitPlus : RE := .seq (.tok Char.isDigit) (.starTok Char.isDigit)

/-- The character class \w, i.e. [A-Za-z0-9_]. -/
def wordChar (c : Char) : Bool := c.isAlphanum || c = '_'

/-- The regex \w+ . -/
def wordPlus : RE := .seq (.tok wordChar) (.starTok wordChar)

/-- The regex . (any character except line terminators). -/
def dotChar : RE := .tok (fun c => !(c = '\n' || c = '\r' || c = '\u2028' || c = '\u2029'))

/-! Embedding of the fraud-ring tables of src/src/db/schema.sql.

The DDL declares, for fraud_rings: id SERIAL PRIMARY KEY,
ring_identifier VARCHAR(100) UNIQUE NOT NULL, detected_at TIMESTAMP with a
default, member_count INTEGER DEFAULT 1, confidence_score FLOAT,
pattern_type VARCHAR(50), status VARCHAR(20) DEFAULT 'active' (the column
comment documents the values 'active', 'resolved', 'false_positive'), and
notes TEXT.  For fraud_ring_members it declares id SERIAL PRIMARY KEY,
ring_id INTEGER NOT NULL with FOREIGN KEY REFERENCES fraud_rings(id)
ON DELETE CASCADE, anonymized_identifier VARCHAR(255) NOT NULL, first_seen
and last_seen TIMESTAMP defaults, and message_count INTEGER DEFAULT 1.
No CHECK constraint exists on either table.  Nullable columns are Options;
timestamps are modelled as natural numbers. -/

/-- One row of the fraud_rings table. -/
structure FraudRingRow where
  id : Nat
  ring_identifier : String
  detected_at : Option Nat
  member_count : Option Int
  confidence_score : Option ℚ
  pattern_type : Option String
  status : Option String
  notes : Option String
deriving DecidableEq

/-- One row of the fraud_ring_members table. -/
structure FraudRingMemberRow where
  id : Nat
  ring_id : Nat
  anonymized_identifier : String
  first_seen : Option Nat
  last_seen : Option Nat
  message_count : Option Int
deriving DecidableEq

/-- The persisted fraud-ring store: the two tables. -/
structure FraudRingDb where
  rings : List FraudRingRow
  members : List FraudRingMemberRow
deriving DecidableEq

/-- Column-level constraints of a fraud_rings row: the VARCHAR length bounds.
There is no constraint on member_count, confidence_score or status beyond
status/pattern_type fitting their VARCHAR sizes. -/
def ringRowOk (r : FraudRingRow) : Prop :=
  r.ring_identifier.length ≤ 100 ∧
    (∀ p ∈ r.pattern_type, p.length ≤ 50) ∧ ∀ s ∈ r.status, s.length ≤ 20

instance (r : FraudRingRow) : Decidable (ringRowOk r) := by
  unfold ringRowOk; infer_instance

/-- Column-level constraints of a fraud_ring_members row. -/
def memberRowOk (m : FraudRingMemberRow) : Prop :=
  m.anonymized_identifier.length ≤ 255

instance (m : FraudRingMemberRow) : Decidable (memberRowOk m) := by
  unfold memberRowOk; infer_instance

/-- Every constraint the schema places on the two tables: primary-key
uniqueness, UNIQUE on ring_identifier, the foreign key from
fraud_ring_members.ring_id to fraud_rings.id, and the column constraints. -/
def dbValid (db : FraudRingDb) : Prop :=
  (db.rings.map (fun r => r.id)).Nodup ∧
    (db.rings.map (fun r => r.ring_identifier)).Nodup ∧
    (db.members.map (fun m => m.id)).Nodup ∧
    (∀ m ∈ db.members, ∃ r ∈ db.rings, r.id = m.ring_id) ∧
    (∀ r ∈ db.rings, ringRowOk r) ∧ ∀ m ∈ db.members, memberRowOk m

instance (db : FraudRingDb) : Decidable (dbValid db) := by
  unfold dbValid; infer_instance

/-- The fraud_rings row produced by inserting only a ring_identifier, with every
other column taking its schema default: member_count 1, status 'active',
confidence_score, pattern_type and notes NULL. -/
def defaultRing (id : Nat) (ident : String) (now : Nat) : FraudRingRow :=
  { id := id
    ring_identifier := ident
    detected_at := some now
    member_count := some 1
    confidence_score := none
    pattern_type := none
    status := some "active"
    notes := none }

/-- The fraud_ring_members row produced by inserting (ring_id, anonymized
identifier) with the schema defaults. -/
def defaultMember (id ring_id : Nat) (tok : String) (now : Nat) : FraudRingMemberRow :=
  { id := id
    ring_id := ring_id
    anonymized_identifier := tok
    first_seen := some now
    last_seen := some now
    message_count := some 1 }

/-- The distinct anonymized member identifiers recorded for a ring. -/
def distinctMemberTokens (db : FraudRingDb) (rid : Nat) : List String :=
  ((db.members.filter (fun m => m.ring_id == rid)).map
      (fun m => m.anonymized_identifier)).dedup

/-- The next SERIAL value of a table keyed by ids. -/
def nextId (ids : List Nat) : Nat := ids.foldr max 0 + 1

/-- The DML operations the schema defines on the two fraud-ring tables. -/
inductive RingOp where
  | insertRing (ident : String)
  | insertMember (rid : Nat) (tok : String)
  | updateStatus (rid : Nat) (st : String)
  | deleteRing (rid : Nat)
deriving DecidableEq

/-- Effect of a DML operation on the store as the schema defines it: inserts take
the column defaults, update rewrites the status column, and DELETE on
fraud_rings cascades to fraud_ring_members through the declared
ON DELETE CASCADE foreign-key action. -/
def applyOp (now : Nat) (db : FraudRingDb) : RingOp → FraudRingDb
  | .insertRing ident =>
      { db with
          rings := db.rings ++ [defaultRing (nextId (db.rings.map (fun r => r.id))) ident now] }
  | .insertMember rid tok =>
      { db with
          members :=
            db.members ++ [defaultMember (nextId (db.members.map (fun m => m.id))) rid tok now] }
  | .updateStatus rid st =>
      { db with
          rings := db.rings.map (fun r => if r.id == rid then { r with status := some st } else r) }
  | .deleteRing rid =>
      { rings := db.rings.filter (fun r => !(r.id == rid))
        members := db.members.filter (fun m => !(m.ring_id == rid)) }

/-- Lifecycle states named by the specification for FraudRing. -/
def specLifecycleStates : List String :=
  ["candidate", "active", "dormant", "merged", "false_positive"]

/-- Status values the schema itself documents in the comment on
fraud_rings.status. -/
def schemaDocumentedStatuses : List String := ["active", "resolved", "false_positive"]

/-! Embedding of the UniversalShield scam detector:
src/extensions/src/detector.js with the pattern tables ScamPatterns and
RiskWeights it reads (the UniversalShield pattern file).  The detector
lowercases its input first, so the case-insensitive regexes are compiled
against lowercase text. -/

/-- A JavaScript regex literal: its source text (RegExp.prototype.source,
backslashes included) and its compiled form. -/
structure JsRegex where
  src : String
  re : RE

/-- The leet class [e3]. -/
def e3 : RE := cls ['e', '3']

/-- The leet class [o0]. -/
def o0 : RE := cls ['o', '0']

/-- The leet class [i1]. -/
def i1 : RE := cls ['i', '1']

/-- The leet class [a4]. -/
def a4 : RE := cls ['a', '4']

/-- The leet class [s5]. -/
def s5 : RE := cls ['s', '5']

/-- The leet class [y7]. -/
def y7 : RE := cls ['y', '7']

/-- The leet class [t7]. -/
def t7 : RE := cls ['t', '7']

/-- Literal pattern shorthand. -/
def L (w : String) : RE := lit w

/-- The ScamPatterns table, in object-entry order, each entry keeping the exact
regex source text next to its compiled form (duplicated array entries of the
source are kept duplicated). -/
def ScamPatterns : List (String × List JsRegex) :=
  [("RESUME_SCAMS",
    [⟨"r[e3]sum[e3]\\s*p[o0]l[i1]sh", seqs [L "r", e3, L "sum", e3, wsStar, L "p", o0, L "l", i1, L "sh"]⟩,
     ⟨"cv\\s*wr[i1]t[e3]r", seqs [L "cv", wsStar, L "wr", i1, L "t", e3, L "r"]⟩,
     ⟨"r[e3]sum[e3]\\s*[o0]pt[i1]m[i1]z", seqs [L "r", e3, L "sum", e3, wsStar, o0, L "pt", i1, L "m", i1, L "z"]⟩,
     ⟨"ATS\\s*f[i1]x", seqs [L "ats", wsStar, L "f", i1, L "x"]⟩,
     ⟨"attach\\s*your\\s*r[e3]sum[e3]", seqs [L "attach", wsStar, L "your", wsStar, L "r", e3, L "sum", e3]⟩,
     ⟨"send\\s*your\\s*cv", seqs [L "send", wsStar, L "your", wsStar, L "cv"]⟩,
     ⟨"quick\\s*review", seqs [L "quick", wsStar, L "review"]⟩,
     ⟨"potential\\s*opportunities", seqs [L "potential", wsStar, L "opportunities"]⟩,
     ⟨"h[o0]ld[i1]ng\\s*y[o0]u\\s*b[a4]ck", seqs [L "h", o0, L "ld", i1, L "ng", wsStar, L "y", o0, L "u", wsStar, L "b", a4, L "ck"]⟩,
     ⟨"g[e3]t\\s*n[o0]t[i1]c[e3]d", seqs [L "g", e3, L "t", wsStar, L "n", o0, L "t", i1, L "c", e3, L "d"]⟩,
     ⟨"pr[o0]v[e3]n\\s*fr[a4]m[e3]w[o0]rk", seqs [L "pr", o0, L "v", e3, L "n", wsStar, L "fr", a4, L "m", e3, L "w", o0, L "rk"]⟩,
     ⟨"LPS|ELITE|ST[A4]R|C[A4]R|WH[O0]", alts [L "lps", L "elite", seqs [L "st", a4, L "r"], seqs [L "c", a4, L "r"], seqs [L "wh", o0]]⟩,
     ⟨"ATS\\s*compl[i1]ant", seqs [L "ats", wsStar, L "compl", i1, L "ant"]⟩,
     ⟨"m[o0]d[e3]rn\\s*ATS", seqs [L "m", o0, L "d", e3, L "rn", wsStar, L "ats"]⟩,
     ⟨"ATS\\s*scr[e3][e3]n[i1]ng", seqs [L "ats", wsStar, L "scr", e3, e3, L "n", i1, L "ng"]⟩,
     ⟨"f[i1]r[s5]t\\s*scr[e3][e3]n[i1]ng", seqs [L "f", i1, L "r", s5, L "t", wsStar, L "scr", e3, e3, L "n", i1, L "ng"]⟩,
     ⟨"h[o0]n[e3]st\\s*r[e3]c[o0]mm[e3]nd[a4]t[i1][o0]n", seqs [L "h", o0, L "n", e3, L "st", wsStar, L "r", e3, L "c", o0, L "mm", e3, L "nd", a4, L "t", i1, o0, L "n"]⟩,
     ⟨"r[e3]sh[a4]p[e3]\\s*[i1]t", seqs [L "r", e3, L "sh", a4, L "p", e3, wsStar, i1, L "t"]⟩,
     ⟨"l[a4]nd[i1]ng\\s*[i1]nt[e3]rv[i1][e3]ws", seqs [L "l", a4, L "nd", i1, L "ng", wsStar, i1, L "nt", e3, L "rv", i1, e3, L "ws"]⟩,
     ⟨"w[o0]nt\\s*m[a4]k[e3]\\s*[i1]t\\s*p[a4]st", seqs [L "w", o0, L "nt", wsStar, L "m", a4, L "k", e3, wsStar, i1, L "t", wsStar, L "p", a4, L "st"]⟩,
     ⟨"TAS\\s*compl[i1]ant", seqs [L "tas", wsStar, L "compl", i1, L "ant"]⟩,
     ⟨"LPS|ELITE|ST[A4]R|C[A4]R|WH[O0]", alts [L "lps", L "elite", seqs [L "st", a4, L "r"], seqs [L "c", a4, L "r"], seqs [L "wh", o0]]⟩,
     ⟨"proven\\s*fr[a4]m[e3]w[o0]rks", seqs [L "proven", wsStar, L "fr", a4, L "m", e3, L "w", o0, L "rks"]⟩,
     ⟨"ATS\\s*s[y7]st[e3]ms", seqs [L "ats", wsStar, L "s", y7, L "st", e3, L "ms"]⟩,
     ⟨"ATS\\s*scr[e3][e3]n[i1]ng", seqs [L "ats", wsStar, L "scr", e3, e3, L "n", i1, L "ng"]⟩,
     ⟨"h[i1]r[i1]ng\\s*m[a4]n[a4]g[e3]r", seqs [L "h", i1, L "r", i1, L "ng", wsStar, L "m", a4, L "n", a4, L "g", e3, L "r"]⟩]),
   ("BEHAVIORAL_FLAGS",
    [⟨"k[i1]ndl[y7]\\s*sh[a4]r[e3]", seqs [L "k", i1, L "ndl", y7, wsStar, L "sh", a4, L "r", e3]⟩,
     ⟨"curr[e3]nt\\s*l[o0]c[a4]t[i1][o0]n", seqs [L "curr", e3, L "nt", wsStar, L "l", o0, L "c", a4, L "t", i1, o0, L "n"]⟩,
     ⟨"y[e3][a4]r[s5]\\s*[o0]f\\s*[e3]xp[e3]r[i1][e3]nc[e3]", seqs [L "y", e3, a4, L "r", s5, wsStar, o0, L "f", wsStar, e3, L "xp", e3, L "r", i1, e3, L "nc", e3]⟩,
     ⟨"A:\\s*Un[i1]t[e3]d\\s*St[a4]t[e3][s5]", seqs [L "a:", wsStar, L "un", i1, L "t", e3, L "d", wsStar, L "st", a4, L "t", e3, s5]⟩,
     ⟨"gmail\\.com", L "gmail.com"⟩]),
   ("URGENCY_WHATSAPP",
    [⟨"wh[a4]ts[a4]pp", seqs [L "wh", a4, L "ts", a4, L "pp"]⟩,
     ⟨"w\\.h\\.a\\.t\\.s", L "w.h.a.t.s"⟩,
     ⟨"t\\.me\\/", L "t.me/"⟩,
     ⟨"contact\\s*me\\s*v[i1][a4]", seqs [L "contact", wsStar, L "me", wsStar, L "v", i1, a4]⟩,
     ⟨"h[i1]r[i1]ng\\s*[i1]mm[e3]d[i1][a4]t[e3]ly", seqs [L "h", i1, L "r", i1, L "ng", wsStar, i1, L "mm", e3, L "d", i1, a4, L "t", e3, L "ly"]⟩,
     ⟨"urgent\\s*response", seqs [L "urgent", wsStar, L "response"]⟩,
     ⟨"limited\\s*time", seqs [L "limited", wsStar, L "time"]⟩]),
   ("PAYMENT_CRYPTO",
    [⟨"cr[y7]pt[o0]", seqs [L "cr", y7, L "pt", o0]⟩,
     ⟨"p[a4][y7]m[e3]nt\\s*f[e3][e3]", seqs [L "p", a4, y7, L "m", e3, L "nt", wsStar, L "f", e3, e3]⟩,
     ⟨"u[s5]dt", seqs [L "u", s5, L "dt"]⟩,
     ⟨"bi[t7]c[o0][i1]n", seqs [L "bi", t7, L "c", o0, i1, L "n"]⟩,
     ⟨"wire\\s*transfer", seqs [L "wire", wsStar, L "transfer"]⟩,
     ⟨"gift\\s*card", seqs [L "gift", wsStar, L "card"]⟩]),
   ("FINANCIAL_PHISHING",
    [⟨"d[e3][s5][t7][i1]ny\\s*m[a4][s5][t7][e3]rc[a4]rd", seqs [L "d", e3, s5, t7, i1, L "ny", wsStar, L "m", a4, s5, t7, e3, L "rc", a4, L "rd"]⟩,
     ⟨"cr[e3]d[i1][t7]\\s*l[i1]m[i1][t7]", seqs [L "cr", e3, L "d", i1, t7, wsStar, L "l", i1, L "m", i1, t7]⟩,
     ⟨"inv[i1][t7][a4][t7][i1][o0]n\\s*f[o0]r\\s*cr[e3]d[i1][t7]", seqs [L "inv", i1, t7, a4, t7, i1, o0, L "n", wsStar, L "f", o0, L "r", wsStar, L "cr", e3, L "d", i1, t7]⟩,
     ⟨"n[o0]\\s*[s5][e3]cur[i1][t7][y7]\\s*d[e3]p[o0][s5][i1][t7]", seqs [L "n", o0, wsStar, s5, e3, L "cur", i1, t7, y7, wsStar, L "d", e3, L "p", o0, s5, i1, t7]⟩,
     ⟨"[a4]ppl[y7]\\s*[t7][o0]d[a4][y7]", seqs [a4, L "ppl", y7, wsStar, t7, o0, L "d", a4, y7]⟩,
     ⟨"m[a4][s5][t7][e3]rc[a4]rd\\s*[a4]ppl[i1]c[a4][t7][i1][o0]n", seqs [L "m", a4, s5, t7, e3, L "rc", a4, L "rd", wsStar, a4, L "ppl", i1, L "c", a4, t7, i1, o0, L "n"]⟩,
     ⟨"m[a4][s5][t7][e3]rc[a4]rd\\s*gu[i1]d[e3]", seqs [L "m", a4, s5, t7, e3, L "rc", a4, L "rd", wsStar, L "gu", i1, L "d", e3]⟩])]

/-- The RiskWeights table. -/
def RiskWeights : List (String × Nat) :=
  [("RESUME_SCAMS", 40),
   ("BEHAVIORAL_FLAGS", 30),
   ("URGENCY_WHATSAPP", 50),
   ("PAYMENT_CRYPTO", 60),
   ("FINANCIAL_PHISHING", 70)]

/-- RiskWeights[category] || 10. -/
def riskWeightOf (cat : String) : Nat :=
  ((RiskWeights.find? (fun p => p.1 == cat)).map (fun p => p.2)).getD 10

namespace ScamDetector

/-- ScamDetector.normalize: strip the characters of [\u200B-\u200D\uFEFF],
lowercase, and trim. -/
def normalize (text : String) : String :=
  Js.trim (Js.toLower
    ⟨text.toList.filter
      (fun c => !((decide (0x200B ≤ c.toNat) && decide (c.toNat ≤ 0x200D)) || c.toNat == 0xFEFF))⟩)

/-- Per-regex weight as ScamDetector.analyze computes it: the category weight
(default 10), then the three regex.source.includes overrides.  The second and
third needles come from plain-quoted JavaScript strings in which the escape
backslash-s collapses to a bare s, so they match no pattern source; the first
matches only the kindly-share pattern, whose category weight is already 30. -/
def patternWeight (cat : String) (r : JsRegex) : Nat :=
  let w := riskWeightOf cat
  let w := if Js.includes r.src "k[i1]ndl[y7]" then 30 else w
  let w := if Js.includes r.src "curr[e3]nts*l[o0]c[a4]t[i1][o0]n" then 30 else w
  let w := if Js.includes r.src "y[e3][a4]r[s5]s*[o0]fs*[e3]xp[e3]r[i1][e3]nc[e3]" then 30 else w
  w

/-- The regex /r[e3]cru[i1]t[e3]r|pr[i1]nc[i1]p[a4]l/gi of the recruiter-title test. -/
def recruiterTitleRe : RE :=
  RE.alt (seqs [L "r", e3, L "cru", i1, L "t", e3, L "r"])
    (seqs [L "pr", i1, L "nc", i1, L "p", a4, L "l"])

/-- The regex /gm[a4][i1]l\.c[o0]m/gi of the gmail-address test. -/
def gmailAddressRe : RE := seqs [L "gm", a4, i1, L "l.c", o0, L "m"]

/-- The regex /a:\s*un[i1]t[e3]d\s*st[a4]t[e3][s5],?\s*$/gi of the vague-address test. -/
def vagueAddressRe1 : RE :=
  seqs [L "a:", wsStar, L "un", i1, L "t", e3, L "d", wsStar, L "st", a4, L "t", e3, s5,
    ropt (L ","), wsStar, RE.eol]

/-- The regex /a:\s*,/gi of the vague-address test. -/
def vagueAddressRe2 : RE := seqs [L "a:", wsStar, L ","]

/-- Accumulated score and pushed category labels of ScamDetector.analyze: the
pattern scan over ScamPatterns, then the gmail-plus-recruiter combo (+40) and
the vague-address check (+30). -/
def scamScan (text : String) : Nat × List String :=
  let cleanText := (normalize text).toList
  let base :=
    ScamPatterns.foldl
      (fun acc cat =>
        cat.2.foldl
          (fun acc2 r =>
            if rtest r.re cleanText then (acc2.1 + patternWeight cat.1 r, acc2.2 ++ [cat.1])
            else acc2)
          acc)
      (0, [])
  let comboHit := rtest recruiterTitleRe cleanText && rtest gmailAddressRe cleanText
  let withCombo :=
    if comboHit then (base.1 + 40, base.2 ++ ["GMAIL_RECRUITER_COMBO"]) else base
  let vagueHit := rtest vagueAddressRe1 cleanText || rtest vagueAddressRe2 cleanText
  if vagueHit then (withCombo.1 + 30, withCombo.2 ++ ["VAGUE_ADDRESS"]) else withCombo

/-- The object ScamDetector.analyze returns. -/
structure AnalyzeResult where
  riskScore : Nat
  riskLevel : String
  matchedPatterns : List String
  isScam : Bool
  isSuspicious : Bool
  recommendations : List String
  categories : List String
deriving DecidableEq

/-- ScamDetector.analyze. -/
def analyze (text : String) : AnalyzeResult :=
  let score := (scamScan text).1
  let pushed := (scamScan text).2
  { riskScore := min score 100
    riskLevel := if 50 ≤ score then "scam" else if 30 ≤ score then "suspicious" else "safe"
    matchedPatterns := pushed
    isScam := decide (50 ≤ score)
    isSuspicious := decide (30 ≤ score) && decide (score < 50)
    recommendations :=
      if 50 ≤ score then
        ["🚨 UNIVERSAL SHIELD: BOT DETECTED", "Report this message to LinkedIn"]
      else if 30 ≤ score then
        ["⚠️ Review carefully before responding", "Verify sender\x27s profile"]
      else []
    categories := pushed }

end ScamDetector

/-! Embedding of the PRO-tier feature extractor and cloud analyzer of
src/extensions/src/cloudAnalyzer.js. -/

namespace FeatureExtractor

/-- this.urgencyKeywords. -/
def urgencyKeywords : List String :=
  ["urgent", "immediately", "now", "today", "asap", "hurry",
   "limited time", "expires", "act now", "don\x27t miss"]

/-- this.moneyKeywords. -/
def moneyKeywords : List String :=
  ["money", "cash", "payment", "bank", "account", "wire",
   "transfer", "deposit", "bitcoin", "crypto", "investment",
   "profit", "earn", "income", "fee", "prize", "lottery"]

/-- this.credentialKeywords. -/
def credentialKeywords : List String :=
  ["password", "login", "verify", "confirm", "account",
   "username", "credentials", "security", "suspended"]

/-- this.recruiterKeywords. -/
def recruiterKeywords : List String :=
  ["recruiter", "hiring", "opportunity", "position", "resume",
   "cv", "application", "interview", "job opening", "career"]

/-- this.financialPhishingKeywords. -/
def financialPhishingKeywords : List String :=
  ["destiny", "mastercard", "credit card", "credit limit",
   "security deposit", "pre-approved", "congratulations",
   "qualify", "approval", "financial opportunity"]

/-- this.cvScamKeywords. -/
def cvScamKeywords : List String :=
  ["improve your cv", "improve your resume", "review your cv", "review your resume",
   "optimize your cv", "optimize your resume", "enhance your profile",
   "help with your cv", "rewrite your resume", "cv services", "resume services",
   "your resume shows", "your cv shows", "reshape it", "restructure your",
   "ats systems", "ats system", "applicant tracking", "frameworks like",
   "star method", "car method", "holding you back", "not getting noticed",
   "honest recommendations", "better shot at", "make it past screening"]

/-- this.legitimateJobKeywords. -/
def legitimateJobKeywords : List String :=
  ["job description", "job opening", "position available", "we are hiring",
   "job requirements", "qualifications", "responsibilities", "years experience",
   "send your cv", "send your resume", "submit your cv", "apply for",
   "job posting", "vacancy", "employment opportunity"]

/-- this.technicalSkillsKeywords. -/
def technicalSkillsKeywords : List String :=
  ["java", "python", "javascript", "react", "angular", "node", "sql",
   "aws", "azure", "docker", "kubernetes", "agile", "scrum",
   "developer", "engineer", "architect", "analyst", "manager",
   "adobe", "sap", "hybris", "aem", "salesforce", "oracle"]

/-- this.transactionalKeywords. -/
def transactionalKeywords : List String :=
  ["we received your application", "thank you for applying",
   "application received", "thank you for your interest",
   "order confirmation", "shipping confirmation", "delivery update",
   "password reset", "verify your email", "welcome to",
   "subscription confirmed", "unsubscribe", "do not reply",
   "automated message", "noreply", "no-reply"]

/-- this.scamPhraseIndicators. -/
def scamPhraseIndicators : List String :=
  ["i saw your profile and i am very impressed",
   "fits your profile perfectly",
   "quick call or can you share your resume",
   "remote position paying",
   "per hour working from home",
   "guaranteed interviews",
   "guarantee you will get",
   "our fee is very affordable",
   "small investment required",
   "pay a small fee",
   "processing fee",
   "registration fee"]

/-- this.feeBasedScamKeywords. -/
def feeBasedScamKeywords : List String :=
  ["our fee", "small fee", "affordable fee", "one-time fee",
   "registration fee", "processing fee", "guarantee interviews",
   "guaranteed job", "guaranteed placement", "pay to",
   "investment required", "upfront payment", "advance payment"]

/-- this.legitimateAutomatedPatterns. -/
def legitimateAutomatedPatterns : List String :=
  ["move forward with other candidates",
   "we have decided to pursue other candidates",
   "thank you for your interest in",
   "we appreciate your application",
   "position has been filled",
   "not moving forward with your application"]

/-- this.authorityPatterns. -/
def authorityPatterns : List String :=
  ["recruiter from google", "recruiter from meta", "recruiter from amazon",
   "recruiter from microsoft", "recruiter from apple", "recruiter from ebay",
   "fortune 500", "senior vp of", "vice president of", "director of talent",
   "global talent", "head of recruitment", "chief people officer",
   "we saw your profile at the", "global summit", "exclusive opportunity"]

/-- this.scarcityPatterns. -/
def scarcityPatterns : List String :=
  ["urgent requirement", "immediate start", "only 2 spots left",
   "only 3 spots", "last vacancy", "reply within 24 hours",
   "closing the portal", "deadline tomorrow", "limited positions",
   "act now", "don\x27t miss this", "expires today", "final call",
   "bonus for immediate response", "secure your spot"]

/-- this.flatteryPatterns. -/
def flatteryPatterns : List String :=
  ["most impressive profile", "perfect fit for", "exactly what we need",
   "visionary like you", "your background is exceptional", "standout candidate",
   "top talent", "highly qualified", "impressed by your experience",
   "you are the ideal candidate", "perfect match for our team"]

/-- this.reciprocityPatterns. -/
def reciprocityPatterns : List String :=
  ["free resume audit", "free cv review", "free consultation",
   "i will give you", "share a list of internal jobs",
   "give me your personal whatsapp", "free tool", "complimentary review",
   "at no cost to you", "free assessment", "free career advice"]

/-- this.cognitiveEasePatterns. -/
def cognitiveEasePatterns : List String :=
  ["no interview needed", "just a quick chat", "high salary for",
   "hours of work per day", "simple tasks", "high rewards",
   "easy money", "work from home", "flexible hours",
   "$50 per hour", "$100 per hour", "per hour remote",
   "minimal effort", "passive income", "side hustle"]

/-- this.socialProofPatterns. -/
def socialProofPatterns : List String :=
  ["other candidates have already", "many professionals joined",
   "architects from", "developers from", "engineers from",
   "as a fellow", "fellow mba", "fellow graduate",
   "people like you", "professionals in your field"]

/-- this.pretextingPatterns. -/
def pretextingPatterns : List String :=
  ["confidential audit", "security verification", "account update required",
   "urgent system update", "verify your identity", "confirm your details",
   "data breach notification", "suspicious activity detected"]

/-- this.quidProQuoPatterns. -/
def quidProQuoPatterns : List String :=
  ["salary range if you", "give me your ssn", "need your id",
   "bank details for", "personal information for", "share your credentials",
   "access in exchange for", "information in return"]

/-- this.redirectionPatterns. -/
def redirectionPatterns : List String :=
  ["contact me on whatsapp", "reach me on telegram", "text me at",
   "call me on my personal", "continue on whatsapp", "move to telegram",
   "personal number is", "add me on"]

/-- this.highAlertPhrases. -/
def highAlertPhrases : List String :=
  ["kindly", "do the needful", "verify your identity",
   "locked account", "suspended account", "job offer without interview",
   "investment opportunity", "crypto payroll", "bitcoin salary",
   "action required immediately", "confirm now"]

/-- FeatureExtractor.countKeywords: how many of the keywords occur in the text. -/
def countKeywords (text : String) (keywords : List String) : Nat :=
  (keywords.filter (fun k => Js.includes text k)).length

/-- The metadata object extract reads; absent properties are none, and
hasAttachment stands for the truthiness of metadata.hasAttachment. -/
structure Metadata where
  hasAttachment : Bool := false
  fileType : Option String := none
  accountAge : Option Int := none
  connectionDegree : Option Int := none
  previousInteractions : Option Int := none
  platform : Option String := none
  claimedRole : Option String := none
  senderEmail : Option String := none
deriving DecidableEq

/-- JavaScript v || d on an optional number: d when the field is absent or 0. -/
def jsOr (v : Option Int) (d : Int) : Int :=
  match v with
  | none => d
  | some x => if x = 0 then d else x

/-- FeatureExtractor.calculateAvgWordLength. -/
def calculateAvgWordLength (message : String) : ℚ :=
  let words := (Js.splitRuns Js.isSpace message).filter (fun w => 0 < w.length)
  if words.length = 0 then 0
  else ((words.map (fun w => w.length)).sum : ℚ) / (words.length : ℚ)

/-- FeatureExtractor.hasShortenedUrl. -/
def hasShortenedUrl (message : String) : Bool :=
  let shorteners := ["bit.ly", "tinyurl", "goo.gl", "t.co", "ow.ly", "is.gd", "buff.ly", "adf.ly"]
  shorteners.any (fun s => Js.includes (Js.toLower message) s)

/-- The character class of the URL regex body [^\s<>"{}|\\^`\[\]]. -/
def urlBodyChar (c : Char) : Bool :=
  !(Js.isSpace c ||
    [ '<', '>', '"', Char.ofNat 123, Char.ofNat 125, '|', '\\', '^', Char.ofNat 96,
      '[', ']'].contains c)

/-- Case-insensitive literal prefix strip: the remainder of s after pat, when the
lowercase of s starts with pat. -/
def stripPrefixCI : List Char → List Char → Option (List Char)
  | [], s => some s
  | _, [] => none
  | p :: ps, c :: cs => if c.toLower = p then stripPrefixCI ps cs else none

/-- Length of the match of /https?:\/\/[^\s<>"{}|\\^`\[\]]+/i at the head of s,
if any. -/
def urlMatchLen (s : List Char) : Option Nat :=
  match stripPrefixCI ['h', 't', 't', 'p'] s with
  | none => none
  | some r1 =>
      let sPart : Nat × List Char :=
        match stripPrefixCI ['s'] r1 with
        | some r => (1, r)
        | none => (0, r1)
      match stripPrefixCI [':', '/', '/'] sPart.2 with
      | none => none
      | some r3 =>
          let body := r3.takeWhile urlBodyChar
          if body.isEmpty then none else some (4 + sPart.1 + 3 + body.length)

/-- Global scan of the main URL regex: the list of matched substrings, resuming
after each match as a global regex does. -/
def scanUrlsAux (fuel : Nat) (s : List Char) : List (List Char) :=
  match fuel, s with
  | 0, _ => []
  | _, [] => []
  | fuel + 1, c :: rest =>
      match urlMatchLen (c :: rest) with
      | some n => (c :: rest).take n :: scanUrlsAux fuel ((c :: rest).drop n)
      | none => scanUrlsAux fuel rest

/-- Matched substrings of the main URL regex over the whole message. -/
def scanUrls (s : List Char) : List (List Char) := scanUrlsAux s.length s

/-- Length of the match of a shortener pattern (literal prefix then \S+) at the
head of s, if any. -/
def shortenerMatchLen (pat : List Char) (s : List Char) : Option Nat :=
  match stripPrefixCI pat s with
  | none => none
  | some r =>
      let body := r.takeWhile (fun c => !Js.isSpace c)
      if body.isEmpty then none else some (pat.length + body.length)

/-- Global scan of one shortener pattern. -/
def scanShortenerAux (pat : List Char) (fuel : Nat) (s : List Char) : List (List Char) :=
  match fuel, s with
  | 0, _ => []
  | _, [] => []
  | fuel + 1, c :: rest =>
      match shortenerMatchLen pat (c :: rest) with
      | some n => (c :: rest).take n :: scanShortenerAux pat fuel ((c :: rest).drop n)
      | none => scanShortenerAux pat fuel rest

/-- Matched substrings of one shortener pattern over the whole message. -/
def scanShortener (pat : String) (s : List Char) : List (List Char) :=
  scanShortenerAux pat.toList s.length s

/-- Spread of a JavaScript Set: keep the first occurrence of each element. -/
def jsSetDedup (l : List String) : List String :=
  l.foldl (fun acc x => if acc.contains x then acc else acc ++ [x]) []

/-- FeatureExtractor.extractUrls: the main URL regex matches, then for each of the
six shortener patterns its matches prefixed with https:// when they do not
already start with http, deduplicated in first-occurrence order. -/
def extractUrls (message : String) : List String :=
  let urls := (scanUrls message.toList).map (fun l => String.mk l)
  let shortenerPatterns := ["bit.ly/", "tinyurl.com/", "goo.gl/", "t.co/", "ow.ly/", "is.gd/"]
  let all :=
    shortenerPatterns.foldl
      (fun acc p =>
        ((scanShortener p message.toList).map (fun l => String.mk l)).foldl
          (fun a m => if m.startsWith "http" then a else a ++ ["https://" ++ m]) acc)
      urls
  jsSetDedup all

/-- FeatureExtractor.getExtensionRisk. -/
def getExtensionRisk (fileType : Option String) : ℚ :=
  match fileType with
  | none => 0
  | some ft =>
      if ft = "" then 0
      else
        let dangerous := ["exe", "bat", "cmd", "scr", "vbs", "js", "jar", "msi"]
        let safe := ["pdf", "doc", "docx", "txt", "jpg", "png"]
        let ext := Js.toLower ft
        if dangerous.contains ext then 1
        else if safe.contains ext then 1 / 10
        else 1 / 2

/-- The class [a-zA-Z]. -/
def isAsciiLetter (c : Char) : Bool :=
  (decide ('a'.toNat ≤ c.toNat) && decide (c.toNat ≤ 'z'.toNat)) ||
    (decide ('A'.toNat ≤ c.toNat) && decide (c.toNat ≤ 'Z'.toNat))

/-- The class [A-Z]. -/
def isAsciiUpper (c : Char) : Bool :=
  decide ('A'.toNat ≤ c.toNat) && decide (c.toNat ≤ 'Z'.toNat)

/-- FeatureExtractor.calculateCapsRatio. -/
def calculateCapsRatio (message : String) : ℚ :=
  let letters := Js.countP isAsciiLetter message.toList
  if letters = 0 then 0
  else (Js.countP isAsciiUpper message.toList : ℚ) / (letters : ℚ)

/-- Property names every plain object literal inherits from Object.prototype.
A JavaScript bracket lookup such as map[platform] consults the prototype
chain, so these keys find an inherited member (a function, or
Object.prototype itself for the proto accessor) even though they are not own
keys of the map. -/
def objectPrototypeProps : List String :=
  ["constructor", "hasOwnProperty", "isPrototypeOf", "propertyIsEnumerable",
   "toLocaleString", "toString", "valueOf", "__proto__",
   "__defineGetter__", "__defineSetter__", "__lookupGetter__", "__lookupSetter__"]

/-- Result of a categorical-id lookup map[x] || 0: a numeric id (an own key of
the map, or the 0 default when the lookup is undefined), or the truthy
Object.prototype member that the bracket lookup finds for an inherited
property name, which the falsy-check of || lets through unchanged. -/
inductive CategoricalId where
  | id (n : Nat)
  | inherited (prop : String)
deriving DecidableEq

/-- FeatureExtractor.platformToId: map[platform] || 0 over the own keys
linkedin 1, gmail 2, outlook 3.  The bracket lookup consults the prototype
chain, so a platform naming an Object.prototype property returns the
inherited truthy member and || 0 keeps it; any other unknown or missing
platform looks up undefined and falls to 0. -/
def platformToId (platform : Option String) : CategoricalId :=
  match platform with
  | some "linkedin" => CategoricalId.id 1
  | some "gmail" => CategoricalId.id 2
  | some "outlook" => CategoricalId.id 3
  | some p =>
      if p ∈ objectPrototypeProps then CategoricalId.inherited p else CategoricalId.id 0
  | none => CategoricalId.id 0

/-- FeatureExtractor.contextToId: map[context] || 0 over the seven known roles,
with the same prototype-chain behaviour as platformToId for an unknown
claimed role naming an Object.prototype property; everything else falls
to 0. -/
def contextToId (context : Option String) : CategoricalId :=
  match context with
  | some "recruiter" => CategoricalId.id 1
  | some "investor" => CategoricalId.id 2
  | some "friend" => CategoricalId.id 3
  | some "coworker" => CategoricalId.id 4
  | some "support" => CategoricalId.id 5
  | some "delivery_service" => CategoricalId.id 6
  | some "professional" => CategoricalId.id 7
  | some c =>
      if c ∈ objectPrototypeProps then CategoricalId.inherited c else CategoricalId.id 0
  | none => CategoricalId.id 0

/-- The regex /download|install|run|execute|open file/. -/
def requestsDownloadRe : RE :=
  alts [L "download", L "install", L "run", L "execute", L "open file"]

/-- FeatureExtractor.requestsDownload. -/
def requestsDownload (message : String) : Bool := rtest requestsDownloadRe message.toList

/-- The regex /send money|wire|transfer|pay|deposit|bank details/. -/
def requestsPaymentRe : RE :=
  alts [L "send money", L "wire", L "transfer", L "pay", L "deposit", L "bank details"]

/-- FeatureExtractor.requestsPayment. -/
def requestsPayment (message : String) : Bool := rtest requestsPaymentRe message.toList

/-- FeatureExtractor.requestsCredentials. -/
def requestsCredentials (message : String) : Bool :=
  decide (2 ≤ countKeywords message credentialKeywords)

/-- FeatureExtractor.detectGmailInMessage: /@gmail\.com/i. -/
def detectGmailInMessage (message : String) : Bool :=
  rtest (L "@gmail.com") (Js.toLower message).toList

/-- FeatureExtractor.calculatePsychAttackScore: number of the ten Cialdini, CISA
and APWG keyword groups with at least one hit. -/
def calculatePsychAttackScore (message : String) : Nat :=
  let hit (l : List String) : Nat := if 0 < countKeywords message l then 1 else 0
  hit authorityPatterns + hit scarcityPatterns + hit flatteryPatterns +
    hit reciprocityPatterns + hit cognitiveEasePatterns + hit socialProofPatterns +
    hit pretextingPatterns + hit quidProQuoPatterns + hit redirectionPatterns +
    hit highAlertPhrases

/-- FeatureExtractor.hasCorporateEmail. -/
def hasCorporateEmail (metadata : Metadata) : Bool :=
  let email := Js.toLower (metadata.senderEmail.getD "")
  if email = "" then false
  else
    let freeEmailDomains :=
      ["gmail.com", "yahoo.com", "hotmail.com", "outlook.com",
       "aol.com", "mail.com", "protonmail.com", "icloud.com"]
    if freeEmailDomains.any (fun d => Js.includes email d) then false
    else Js.includes email "@"

/-- FeatureExtractor.hasJobTitle. -/
def hasJobTitle (message : String) : Bool :=
  let jobTitles :=
    ["developer", "engineer", "architect", "analyst", "manager",
     "director", "specialist", "consultant", "administrator",
     "coordinator", "lead", "senior", "junior", "intern"]
  jobTitles.any (fun t => Js.includes message t)

/-- The twelve regexes of FeatureExtractor.isTransactionalEmail. -/
def transactionalRes : List RE :=
  [L "we received your application",
   seqs [L "thank you for ", alts [L "applying", L "your interest", L "your application"]],
   seqs [L "application ", alts [L "received", L "submitted", L "confirmed"]],
   seqs [L "order ", alts [L "confirmation", L "confirmed", L "shipped"]],
   seqs [alts [L "password", L "account"], L " ", alts [L "reset", L "recovery"]],
   seqs [L "verify your ", alts [L "email", L "account"]],
   L "welcome to",
   seqs [alts [L "do not", L "don\x27t"], L " reply"],
   L "this is an automated",
   alts [L "noreply", L "no-reply"],
   L "unsubscribe",
   alts [L "bamboohr", L "workday", L "greenhouse", L "lever", L "icims"]]

/-- FeatureExtractor.isTransactionalEmail. -/
def isTransactionalEmail (message : String) : Bool :=
  transactionalRes.any (fun re => rtest re message.toList)

/-- The regex /where are you located|what.?s your location|where do you live/. -/
def locationInquiryRe : RE :=
  alts [L "where are you located",
    seqs [L "what", ropt dotChar, L "s your location"],
    L "where do you live"]

/-- The regex /how many years|years of experience|your experience/. -/
def experienceInquiryRe : RE :=
  alts [L "how many years", L "years of experience", L "your experience"]

/-- The regex /\d+\s+\w+\s+(street|st|avenue|ave|road|rd|drive|dr)(?!\s+\w)/i. -/
def vagueAddressPatternRe : RE :=
  seqs [digitPlus, wsPlus, wordPlus, wsPlus,
    alts [L "street", L "st", L "avenue", L "ave", L "road", L "rd", L "drive", L "dr"],
    RE.notFollowed (seqs [wsPlus, RE.tok wordChar])]

/-- The regex /credit card|mastercard|visa|amex/. -/
def creditCardRe : RE := alts [L "credit card", L "mastercard", L "visa", L "amex"]

/-- The regex /credit limit|\$\d+\s*credit/. -/
def creditLimitRe : RE :=
  alts [L "credit limit", seqs [L "$", digitPlus, wsStar, L "credit"]]

/-- The regex /security deposit|deposit required/. -/
def securityDepositRe : RE := alts [L "security deposit", L "deposit required"]

/-- The regex /https?:\/\// (whose global match count is link_count). -/
def linkRe : RE := seqs [L "http", ropt (L "s"), L "://"]

/-- The feature object FeatureExtractor.extract returns, fields in source order.
Every field is numeric or categorical: no text of the message appears. -/
structure Features where
  message_length : Nat
  word_count : Nat
  sentence_count : Nat
  avg_word_length : ℚ
  urgency_keywords_count : Nat
  money_keywords_count : Nat
  credential_keywords_count : Nat
  recruiter_keywords_count : Nat
  location_inquiry : Nat
  experience_inquiry : Nat
  gmail_in_message : Nat
  gmail_recruiter_combo : Nat
  vague_address_pattern : Nat
  scam_phrase_count : Nat
  fee_based_scam_count : Nat
  is_legitimate_rejection : Nat
  authority_score : Nat
  scarcity_score : Nat
  flattery_score : Nat
  reciprocity_score : Nat
  cognitive_ease_score : Nat
  social_proof_score : Nat
  pretexting_score : Nat
  quid_pro_quo_score : Nat
  redirection_score : Nat
  high_alert_score : Nat
  psych_attack_total : Nat
  financial_phishing_keywords_count : Nat
  credit_card_mention : Nat
  credit_limit_mention : Nat
  security_deposit_mention : Nat
  cv_scam_keywords_count : Nat
  legitimate_job_keywords_count : Nat
  technical_skills_count : Nat
  has_corporate_email : Nat
  has_specific_job_title : Nat
  transactional_keywords_count : Nat
  is_transactional_email : Nat
  link_count : Nat
  has_shortened_url : Nat
  file_attachment : Nat
  file_extension_risk : ℚ
  exclamation_count : Nat
  question_count : Nat
  caps_ratio : ℚ
  number_count : Nat
  currency_symbol_count : Nat
  sender_account_age_days : Int
  connection_degree : Int
  previous_interactions : Int
  platform_id : CategoricalId
  context_type_id : CategoricalId
  requests_download : Nat
  requests_payment : Nat
  requests_credentials : Nat
  has_urgency : Nat
deriving DecidableEq

/-- Booleans rendered as the 0/1 numbers the source produces with cond ? 1 : 0. -/
def b01 (b : Bool) : Nat := if b then 1 else 0

/-- FeatureExtractor.extract. -/
def extract (message : String) (metadata : Metadata) : Features :=
  let messageLower := Js.toLower message
  let lowerL := messageLower.toList
  let rawL := message.toList
  { message_length := rawL.length
    word_count := (Js.splitRuns Js.isSpace message).length
    sentence_count := (Js.splitRuns (fun c => c = '.' || c = '!' || c = '?') message).length
    avg_word_length := calculateAvgWordLength message
    urgency_keywords_count := countKeywords messageLower urgencyKeywords
    money_keywords_count := countKeywords messageLower moneyKeywords
    credential_keywords_count := countKeywords messageLower credentialKeywords
    recruiter_keywords_count := countKeywords messageLower recruiterKeywords
    location_inquiry := b01 (rtest locationInquiryRe lowerL)
    experience_inquiry := b01 (rtest experienceInquiryRe lowerL)
    gmail_in_message := b01 (detectGmailInMessage messageLower)
    gmail_recruiter_combo :=
      b01 (detectGmailInMessage messageLower &&
        decide (0 < countKeywords messageLower recruiterKeywords))
    vague_address_pattern := b01 (rtest vagueAddressPatternRe lowerL)
    scam_phrase_count := countKeywords messageLower scamPhraseIndicators
    fee_based_scam_count := countKeywords messageLower feeBasedScamKeywords
    is_legitimate_rejection :=
      b01 (decide (0 < countKeywords messageLower legitimateAutomatedPatterns))
    authority_score := countKeywords messageLower authorityPatterns
    scarcity_score := countKeywords messageLower scarcityPatterns
    flattery_score := countKeywords messageLower flatteryPatterns
    reciprocity_score := countKeywords messageLower reciprocityPatterns
    cognitive_ease_score := countKeywords messageLower cognitiveEasePatterns
    social_proof_score := countKeywords messageLower socialProofPatterns
    pretexting_score := countKeywords messageLower pretextingPatterns
    quid_pro_quo_score := countKeywords messageLower quidProQuoPatterns
    redirection_score := countKeywords messageLower redirectionPatterns
    high_alert_score := countKeywords messageLower highAlertPhrases
    psych_attack_total := calculatePsychAttackScore messageLower
    financial_phishing_keywords_count := countKeywords messageLower financialPhishingKeywords
    credit_card_mention := b01 (rtest creditCardRe lowerL)
    credit_limit_mention := b01 (rtest creditLimitRe lowerL)
    security_deposit_mention := b01 (rtest securityDepositRe lowerL)
    cv_scam_keywords_count := countKeywords messageLower cvScamKeywords
    legitimate_job_keywords_count := countKeywords messageLower legitimateJobKeywords
    technical_skills_count := countKeywords messageLower technicalSkillsKeywords
    has_corporate_email := b01 (hasCorporateEmail metadata)
    has_specific_job_title := b01 (hasJobTitle messageLower)
    transactional_keywords_count := countKeywords messageLower transactionalKeywords
    is_transactional_email := b01 (isTransactionalEmail messageLower)
    link_count := countMatchPositions linkRe rawL
    has_shortened_url := b01 (hasShortenedUrl message)
    file_attachment := b01 metadata.hasAttachment
    file_extension_risk := getExtensionRisk metadata.fileType
    exclamation_count := Js.countP (fun c => c = '!') rawL
    question_count := Js.countP (fun c => c = '?') rawL
    caps_ratio := calculateCapsRatio message
    number_count := Js.countRuns Char.isDigit rawL
    currency_symbol_count := Js.countP (fun c => c = '$' || c = '€' || c = '£') rawL
    sender_account_age_days := jsOr metadata.accountAge 0
    connection_degree := jsOr metadata.connectionDegree 3
    previous_interactions := min (jsOr metadata.previousInteractions 0) 100
    platform_id := platformToId metadata.platform
    context_type_id := contextToId metadata.claimedRole
    requests_download := b01 (requestsDownload messageLower)
    requests_payment := b01 (requestsPayment messageLower)
    requests_credentials := b01 (requestsCredentials messageLower)
    has_urgency := b01 (decide (0 < countKeywords messageLower urgencyKeywords)) }

end FeatureExtractor

/-! Embedding of CloudAnalyzer.analyze and CloudAnalyzer.verifyUrls: what the
client transmits.  The network itself is abstracted: the verify-urls response
is a parameter (none models a failed URL check, which the source swallows and
treats as no threat), and the retry loop of the feature call resends the
identical body, so the transmitted request bodies are captured as a list. -/

/-- A request body CloudAnalyzer posts to the analysis API: the raw URL list sent
to /api/v1/verify-urls, or the feature object sent to /api/v1/analyze-features. -/
inductive Payload where
  | verifyUrls (urls : List String)
  | analyzeFeatures (features : FeatureExtractor.Features)
deriving DecidableEq

/-- The sequence of distinct request bodies CloudAnalyzer.analyze transmits for a
message: when extractUrls finds URLs they are posted verbatim to verify-urls
first, and unless the response reports has_threats (some true) the extracted
features are then posted to analyze-features. -/
def analyzeOutbound (message : String) (metadata : FeatureExtractor.Metadata)
    (threatResponse : Option Bool) : List Payload :=
  let urls := FeatureExtractor.extractUrls message
  if 0 < urls.length then
    if threatResponse = some true then [Payload.verifyUrls urls]
    else
      [Payload.verifyUrls urls,
        Payload.analyzeFeatures (FeatureExtractor.extract message metadata)]
  else [Payload.analyzeFeatures (FeatureExtractor.extract message metadata)]

/-! Embedding of the ParadigmStore fraud-detection SDK client
(src/unnamed/part_013). -/

namespace FraudDetection

/-- The SDK errors: init without an apiKey, analyze without init. -/
inductive SdkError where
  | apiKeyRequired
  | notInitialized
deriving DecidableEq

/-- The singleton state: this.apiKey, null until init. -/
structure State where
  apiKey : Option String
deriving DecidableEq

/-- The constructor: this.apiKey = null. -/
def initial : State := { apiKey := none }

/-- JavaScript falsiness of an optional string: absent, null or empty. -/
def isFalsyStr : Option String → Bool
  | none => true
  | some s => s = ""

/-- FraudDetection.init: throws when apiKey is falsy, else stores it. -/
def init (apiKey : Option String) : Except SdkError State :=
  if isFalsyStr apiKey then Except.error SdkError.apiKeyRequired
  else Except.ok { apiKey := apiKey }

/-- The analysis result object; on the fallback path the source builds it as
success: false, error: error.message, risk_score: 0.5, recommendation: REVIEW. -/
structure FraudAnalysisResult where
  success : Bool
  error : Option String
  risk_score : ℚ
  recommendation : String
deriving DecidableEq

/-- FraudDetection.analyze: throws when this.apiKey is unset, otherwise returns
the HTTP response data, or on any request error resolves with the fallback
object instead of rethrowing.  The HTTP exchange is abstracted as an Except
whose error carries error.message. -/
def analyze (st : State) (transaction : String)
    (http : Except String FraudAnalysisResult) : Except SdkError FraudAnalysisResult :=
  if isFalsyStr st.apiKey then Except.error SdkError.notInitialized
  else
    match http with
    | Except.ok data => Except.ok data
    | Except.error msg =>
        Except.ok
          { success := false
            error := some msg
            risk_score := 1 / 2
            recommendation := "REVIEW" }

end FraudDetection

/-! Models of the fraud-ring engine itself.  The repository's
fraud_ring_detector.py (declared in the phase-4 implementation summary with
anonymize_identifier, calculate_similarity and save_rings_to_database) is not
part of the source tree, so these components are modelled from the
specification text and the claims about them are settled against the models. -/

namespace SpecModel

/-- Modelled from the spec: the fixed-shape behavioral signature of §4.2 —
normalized numeric sub-vector, categorical sub-vector, and the declared
pattern type (fraud_ring_detector.py extract_behavioral_signature is not
under src). -/
structure BehavioralSignature where
  numeric : List ℚ
  categorical : List Nat
  patternType : String
deriving DecidableEq

/-- Modelled from the spec: the tunable per-field weight configuration of §4.3,
with the declared pattern type weighted as its own field. -/
structure SimilarityWeights where
  numeric : List ℚ
  categorical : List ℚ
  patternType : ℚ
deriving DecidableEq

/-- Clamp to [0,1]. -/
def clamp01 (q : ℚ) : ℚ := max 0 (min 1 q)

/-- Numeric closeness of §4.3: 1 - min(|a_i - b_i|, 1). -/
def numericCloseness (x y : ℚ) : ℚ := 1 - min |x - y| 1

/-- Modelled from the spec: similarity of §4.3 (fraud_ring_detector.py
calculate_similarity is not under src) — the weight-normalized sum of numeric
closeness and 0/1 categorical agreement including the pattern type, clamped
to [0,1]. -/
def similarity (w : SimilarityWeights) (a b : BehavioralSignature) : ℚ :=
  let numScores := List.zipWith numericCloseness a.numeric b.numeric
  let catScores := List.zipWith (fun x y : Nat => if x = y then (1 : ℚ) else 0) a.categorical b.categorical
  let patScore : ℚ := if a.patternType = b.patternType then 1 else 0
  let weighted :=
    (List.zipWith (fun x y => x * y) w.numeric numScores).sum +
      (List.zipWith (fun x y => x * y) w.categorical catScores).sum +
      w.patternType * patScore
  let total := w.numeric.sum + w.categorical.sum + w.patternType
  if total = 0 then 0 else clamp01 (weighted / total)

/-- Signature a has the shape the weight configuration w expects. -/
def wellShaped (w : SimilarityWeights) (a : BehavioralSignature) : Prop :=
  a.numeric.length = w.numeric.length ∧ a.categorical.length = w.categorical.length

instance (w : SimilarityWeights) (a : BehavioralSignature) : Decidable (wellShaped w a) := by
  unfold wellShaped; infer_instance

/-- The run-aborting errors of §7. -/
inductive RunError where
  | repositoryUnavailable
  | timeout
deriving DecidableEq

/-- Modelled from the spec: a ring as the detection run writes it. -/
structure SpecRing where
  id : Nat
  members : List String
  state : String
deriving DecidableEq

/-- Modelled from the spec: the ring creates, extensions and merges a detection
run persists through RingRepository (§4.5, §6). -/
inductive RingWrite where
  | create (ringId : Nat) (members : List String)
  | extend (ringId : Nat) (newMembers : List String)
  | merge (survivor : Nat) (absorbed : Nat)
deriving DecidableEq

/-- Effect of one committed ring write. -/
def applyWrite (db : List SpecRing) : RingWrite → List SpecRing
  | RingWrite.create rid ms => db ++ [{ id := rid, members := ms, state := "candidate" }]
  | RingWrite.extend rid ms =>
      db.map (fun r => if r.id = rid then { r with members := r.members ++ ms } else r)
  | RingWrite.merge s a =>
      let absorbed := (db.filter (fun r => r.id = a)).foldr (fun r acc => r.members ++ acc) []
      db.map (fun r =>
        if r.id = s then { r with members := r.members ++ absorbed }
        else if r.id = a then { r with state := "merged" } else r)

/-- Effect of a committed sequence of ring writes. -/
def applyWrites (db : List SpecRing) (ws : List RingWrite) : List SpecRing :=
  ws.foldl applyWrite db

/-- The committed ring set after a run together with the error surfaced to the
scheduler, if any. -/
structure RunOutcome where
  committed : List SpecRing
  error : Option RunError
deriving DecidableEq

/-- Buffer the run's writes into the open transaction one at a time; none when
the repository becomes unavailable (or the budget expires) at step failAt
before the buffer is complete. -/
def bufferWrites : List RingWrite → Option Nat → Nat → Option (List RingWrite)
  | [], _, _ => some []
  | w :: ws, failAt, step =>
      if failAt = some step then none
      else
        match bufferWrites ws failAt (step + 1) with
        | none => none
        | some buf => some (w :: buf)

/-- Modelled from the spec: the detection run of §5/§7 (the transactional
persistence of fraud_ring_detector.py save_rings_to_database is not under
src) — all persistence is wrapped in a single transaction: a complete buffer
commits atomically, an interrupted one is rolled back leaving the previously
committed ring set unchanged and surfacing the error for retry. -/
def runDetection (db : List SpecRing) (writes : List RingWrite) (failAt : Option Nat)
    (e : RunError) : RunOutcome :=
  match bufferWrites writes failAt 0 with
  | some buf => { committed := applyWrites db buf, error := none }
  | none => { committed := db, error := some e }

/-- The anonymization failure of §4.1. -/
inductive AnonymizeError where
  | invalidIdentifier
deriving DecidableEq

/-- Modelled from the spec: stand-in for the salted one-way hash of §4.1
(fraud_ring_detector.py anonymize_identifier, documented as SHA-256, is not
under src): a deterministic pure function of the secret salt and the
identifier. -/
def hashToken (salt identifier : String) : String :=
  let h :=
    (salt ++ "|" ++ identifier).toList.foldl
      (fun a c => (a * 131 + c.toNat) % (2 ^ 64)) 7
  "tok_" ++ toString h

/-- Modelled from the spec: anonymize of §4.1 — empty or null identifiers raise
InvalidIdentifierError, anything else maps to the salted hash token. -/
def anonymize (salt : String) (identifier : Option String) : Except AnonymizeError String :=
  match identifier with
  | none => Except.error AnonymizeError.invalidIdentifier
  | some s =>
      if s = "" then Except.error AnonymizeError.invalidIdentifier
      else Except.ok (hashToken salt s)

end SpecModel

/-! Concrete example stores used by the schema claims. -/

/-- The empty store. -/
def emptyDb : FraudRingDb := { rings := [], members := [] }

/-- The store after inserting one ring with only its identifier, all other
columns taking the schema defaults. -/
def exampleDb1 : FraudRingDb := applyOp 0 emptyDb (RingOp.insertRing "ring-1")

/-- A ring carrying the status 'resolved' that the schema comment documents. -/
def resolvedRing : FraudRingRow := { defaultRing 2 "ring-2" 0 with status := some "resolved" }

/-- A store whose rings carry exactly the three statuses the schema documents. -/
def exampleDb2 : FraudRingDb :=
  { rings :=
      [defaultRing 1 "ring-1" 0, resolvedRing,
        { defaultRing 3 "ring-3" 0 with status := some "false_positive" }]
    members := [] }

/-- A store with one ring and one membership row. -/
def exampleDb3 : FraudRingDb :=
  { rings := [defaultRing 1 "ring-1" 0], members := [defaultMember 1 1 "tok-a" 0] }

end FakeDetector

namespace FakeDetector

/-! Theorems settling the claims. -/

/-- C1 counterexample: the claim that every persisted FraudRing in the active or
dormant state has at least 2 distinct member tokens is false for the schema:
inserting a ring with the schema defaults persists it with status 'active',
member_count 1 and zero membership rows, and the store stays valid under
every constraint the schema declares. -/
theorem c1_counterexample :
    ¬ (∀ db : FraudRingDb, dbValid db → ∀ r ∈ db.rings,
        (r.status = some "active" ∨ r.status = some "dormant") →
          2 ≤ (distinctMemberTokens db r.id).length) := by
  intro h
  have h2 :=
    h exampleDb1 (by decide) (defaultRing 1 "ring-1" 0) (by decide) (Or.inl rfl)
  exact
    (by decide :
      ¬ 2 ≤ (distinctMemberTokens exampleDb1 (defaultRing 1 "ring-1" 0).id).length) h2

/-- C1 (amended): the schema enforces no minimum membership — a FraudRing
inserted with only its identifier is persisted with the defaults
status 'active' and member_count 1, with no membership rows at all, and the
resulting store satisfies every declared schema constraint. -/
theorem c1_amended :
    dbValid exampleDb1 ∧
      exampleDb1.rings = [defaultRing 1 "ring-1" 0] ∧
      (defaultRing 1 "ring-1" 0).status = some "active" ∧
      (defaultRing 1 "ring-1" 0).member_count = some 1 ∧
      (distinctMemberTokens exampleDb1 1).length = 0 := by decide

/-- C2 counterexample: the claim that every persisted FraudRing status is one of
candidate, active, dormant, merged, false_positive is false for the schema:
a ring with the documented status 'resolved' satisfies every declared
constraint (status is an unconstrained VARCHAR(20)). -/
theorem c2_counterexample :
    ¬ (∀ db : FraudRingDb, dbValid db → ∀ r ∈ db.rings,
        ∀ s ∈ r.status, s ∈ specLifecycleStates) := by
  intro h
  have h2 := h exampleDb2 (by decide) resolvedRing (by decide) "resolved" rfl
  exact (by decide : "resolved" ∉ specLifecycleStates) h2

/-- C2 (amended): fraud_rings.status is an unconstrained VARCHAR(20) defaulting
to 'active'; the values the schema itself documents are 'active', 'resolved'
and 'false_positive' — all valid, all within the length bound — and
'resolved' is not one of the five lifecycle states the specification names.
No schema mechanism restricts who assigns 'false_positive'. -/
theorem c2_amended :
    dbValid exampleDb2 ∧
      (∀ r ∈ exampleDb2.rings, ∀ s ∈ r.status, s ∈ schemaDocumentedStatuses) ∧
      (defaultRing 1 "ring-1" 0).status = some "active" ∧
      "resolved" ∈ schemaDocumentedStatuses ∧
      "resolved" ∉ specLifecycleStates ∧
      ∀ s ∈ schemaDocumentedStatuses, s.length ≤ 20 := by decide

/-- C6 counterexample: the claim that a FraudRing, once created, is never
physically deleted — every ring id staying resolvable with its membership
records — is false for the schema: DELETE on fraud_rings is one of the DML
operations the schema gives semantics to (its ON DELETE CASCADE foreign-key
action), and applying it to a valid store removes the ring row. -/
theorem c6_counterexample :
    ¬ (∀ (now : Nat) (db : FraudRingDb) (op : RingOp), dbValid db →
        ∀ r ∈ db.rings, ∃ r2 ∈ (applyOp now db op).rings, r2.id = r.id) := by
  intro h
  obtain ⟨r2, hmem, -⟩ :=
    h 0 exampleDb3 (RingOp.deleteRing 1) (by decide) (defaultRing 1 "ring-1" 0) (by decide)
  have hnil : (applyOp 0 exampleDb3 (RingOp.deleteRing 1)).rings = [] := by decide
  rw [hnil] at hmem
  exact List.not_mem_nil r2 hmem

/-- C6 (amended): rings can be physically deleted; when one is, the
ON DELETE CASCADE action declared on fraud_ring_members deletes the ring's
membership rows with it, so the store stays schema-valid but neither the ring
nor its memberships remain resolvable. -/
theorem c6_amended (now : Nat) (db : FraudRingDb) (rid : Nat) (h : dbValid db) :
    dbValid (applyOp now db (RingOp.deleteRing rid)) ∧
      (∀ m ∈ (applyOp now db (RingOp.deleteRing rid)).members, m.ring_id ≠ rid) ∧
      ∀ r ∈ (applyOp now db (RingOp.deleteRing rid)).rings, r.id ≠ rid := by
  obtain ⟨h1, h2, h3, h4, h5, h6⟩ := h
  simp only [applyOp]
  refine ⟨⟨?_, ?_, ?_, ?_, ?_, ?_⟩, ?_, ?_⟩
  · exact h1.sublist ((List.filter_sublist db.rings).map (fun r => r.id))
  · exact h2.sublist ((List.filter_sublist db.rings).map (fun r => r.ring_identifier))
  · exact h3.sublist ((List.filter_sublist db.members).map (fun m => m.id))
  · intro m hm
    rw [List.mem_filter] at hm
    obtain ⟨r, hr, hrid⟩ := h4 m hm.1
    refine ⟨r, ?_, hrid⟩
    rw [List.mem_filter]
    refine ⟨hr, ?_⟩
    simpa [hrid] using hm.2
  · intro r hr
    rw [List.mem_filter] at hr
    exact h5 r hr.1
  · intro m hm
    rw [List.mem_filter] at hm
    exact h6 m hm.1
  · intro m hm
    rw [List.mem_filter] at hm
    simpa using hm.2
  · intro r hr
    rw [List.mem_filter] at hr
    simpa using hr.2

/-- Witness for C6 (amended) at a concrete valid store. -/
theorem c6_amended_witness :
    dbValid (applyOp 0 exampleDb3 (RingOp.deleteRing 1)) :=
  (c6_amended 0 exampleDb3 1 (by decide)).1

/-- C9: ScamDetector.analyze is total and internally consistent on every input:
riskScore is the accumulated pattern score clamped at 100, riskLevel is scam
exactly when the accumulated score is at least 50, suspicious exactly when it
is in [30,50), safe otherwise, and isScam holds exactly when riskLevel is
scam. -/
theorem c9_analyze_consistent (text : String) :
    (ScamDetector.analyze text).riskScore = min (ScamDetector.scamScan text).1 100 ∧
      (ScamDetector.analyze text).riskScore ≤ 100 ∧
      ((ScamDetector.analyze text).riskLevel = "scam" ↔ 50 ≤ (ScamDetector.scamScan text).1) ∧
      ((ScamDetector.analyze text).riskLevel = "suspicious" ↔
        30 ≤ (ScamDetector.scamScan text).1 ∧ (ScamDetector.scamScan text).1 < 50) ∧
      ((ScamDetector.analyze text).riskLevel = "safe" ↔ (ScamDetector.scamScan text).1 < 30) ∧
      ((ScamDetector.analyze text).isScam = true ↔
        (ScamDetector.analyze text).riskLevel = "scam") := by
  have hscore : (ScamDetector.analyze text).riskScore =
      min (ScamDetector.scamScan text).1 100 := rfl
  have hlevel : (ScamDetector.analyze text).riskLevel =
      (if 50 ≤ (ScamDetector.scamScan text).1 then "scam"
        else if 30 ≤ (ScamDetector.scamScan text).1 then "suspicious" else "safe") := rfl
  have hscam : (ScamDetector.analyze text).isScam =
      decide (50 ≤ (ScamDetector.scamScan text).1) := rfl
  refine ⟨hscore, ?_, ?_, ?_, ?_, ?_⟩
  · rw [hscore]
    exact min_le_right _ _
  · rw [hlevel]
    split_ifs with h1 h2 <;> simp_all <;> omega
  · rw [hlevel]
    split_ifs with h1 h2 <;> simp_all <;> omega
  · rw [hlevel]
    split_ifs with h1 h2 <;> simp_all <;> omega
  · rw [hscam, hlevel]
    split_ifs with h1 h2 <;> simp_all <;> omega

/-- C10: the SDK client rejects a falsy apiKey at init, rejects analyze before
init, and once initialized never propagates transport failures: any HTTP
error resolves to the fallback result with success false, risk_score 0.5 and
recommendation REVIEW. -/
theorem c10_sdk_error_handling (apiKey : Option String) (tx : String)
    (http : Except String FraudDetection.FraudAnalysisResult) :
    (FraudDetection.init apiKey = Except.error FraudDetection.SdkError.apiKeyRequired ↔
        FraudDetection.isFalsyStr apiKey = true) ∧
      (FraudDetection.analyze FraudDetection.initial tx http =
        Except.error FraudDetection.SdkError.notInitialized) ∧
      ∀ st, FraudDetection.init apiKey = Except.ok st →
        ∃ r, FraudDetection.analyze st tx http = Except.ok r ∧
          ∀ msg, http = Except.error msg →
            r.success = false ∧ r.risk_score = 1 / 2 ∧ r.recommendation = "REVIEW" ∧
              r.error = some msg := by
  refine ⟨?_, ?_, ?_⟩
  · unfold FraudDetection.init
    split_ifs with hf <;> simp [hf]
  · rfl
  · intro st hst
    unfold FraudDetection.init at hst
    split_ifs at hst with hf
    have hok : st = { apiKey := apiKey } := by
      first
        | (injection hst with h; exact h.symm)
        | exact hst.symm
    subst hok
    cases http with
    | ok data =>
        refine ⟨data, ?_, ?_⟩
        · simp [FraudDetection.analyze, hf]
        · intro msg hmsg
          simp at hmsg
    | error msg =>
        refine ⟨⟨false, some msg, 1 / 2, "REVIEW"⟩, ?_, ?_⟩
        · simp [FraudDetection.analyze, hf]
        · intro msg2 hmsg2
          injection hmsg2 with h2
          subst h2
          exact ⟨rfl, rfl, rfl, rfl⟩

/-- Witness for C10 at a concrete key and a failing HTTP exchange. -/
theorem c10_sdk_witness :
    FraudDetection.analyze { apiKey := some "key" } "tx" (Except.error "ECONNREFUSED") =
      Except.ok ⟨false, some "ECONNREFUSED", 1 / 2, "REVIEW"⟩ := by
  obtain ⟨-, -, h3⟩ :=
    c10_sdk_error_handling (some "key") "tx" (Except.error "ECONNREFUSED")
  obtain ⟨r, hr, hfall⟩ := h3 { apiKey := some "key" } rfl
  obtain ⟨ha, hb, hc, hd⟩ := hfall "ECONNREFUSED" rfl
  have hre : r = ⟨false, some "ECONNREFUSED", 1 / 2, "REVIEW"⟩ := by
    obtain ⟨rs, re, rr, rc⟩ := r
    simp only at ha hb hc hd
    subst ha
    subst hb
    subst hc
    subst hd
    rfl
  rw [hre] at hr
  exact hr

/-- Numeric closeness of a signature with itself is 1 in every coordinate. -/
theorem zipWith_numericCloseness_self (l : List ℚ) :
    List.zipWith SpecModel.numericCloseness l l = l.map (fun _ => (1 : ℚ)) := by
  induction l with
  | nil => rfl
  | cons x xs ih =>
      have h : SpecModel.numericCloseness x x = 1 := by
        unfold SpecModel.numericCloseness
        rw [sub_self, abs_zero, min_eq_left (by norm_num : (0 : ℚ) ≤ 1), sub_zero]
      simp only [List.zipWith_cons_cons, List.map_cons]
      rw [h, ih]

/-- Categorical agreement of a signature with itself is 1 in every coordinate. -/
theorem zipWith_natEq_self (l : List Nat) :
    List.zipWith (fun x y : Nat => if x = y then (1 : ℚ) else 0) l l =
      l.map (fun _ => (1 : ℚ)) := by
  induction l with
  | nil => rfl
  | cons x xs ih => simp [ih]

/-- Weighting an all-ones score vector of matching length sums to the weight total. -/
theorem sum_zipWith_mul_ones {α : Type} (w : List ℚ) (l : List α)
    (h : l.length = w.length) :
    (List.zipWith (fun x y => x * y) w (l.map (fun _ => (1 : ℚ)))).sum = w.sum := by
  induction w generalizing l with
  | nil => simp
  | cons a as ih =>
      cases l with
      | nil => simp at h
      | cons b bs =>
          simp only [List.map_cons, List.zipWith_cons_cons, List.sum_cons]
          rw [ih bs (by simpa using h)]
          ring

/-- Numeric closeness is symmetric coordinatewise. -/
theorem zipWith_numericCloseness_comm (a b : List ℚ) :
    List.zipWith SpecModel.numericCloseness a b =
      List.zipWith SpecModel.numericCloseness b a := by
  induction a generalizing b with
  | nil => cases b <;> rfl
  | cons x xs ih =>
      cases b with
      | nil => rfl
      | cons y ys =>
          simp only [List.zipWith_cons_cons]
          rw [ih ys]
          congr 1
          unfold SpecModel.numericCloseness
          rw [abs_sub_comm]

/-- Categorical agreement is symmetric coordinatewise. -/
theorem zipWith_natEq_comm (a b : List Nat) :
    List.zipWith (fun x y : Nat => if x = y then (1 : ℚ) else 0) a b =
      List.zipWith (fun x y : Nat => if x = y then (1 : ℚ) else 0) b a := by
  induction a generalizing b with
  | nil => cases b <;> rfl
  | cons x xs ih =>
      cases b with
      | nil => rfl
      | cons y ys =>
          simp only [List.zipWith_cons_cons]
          rw [ih ys]
          congr 1
          by_cases hxy : x = y
          · rw [if_pos hxy, if_pos hxy.symm]
          · rw [if_neg hxy, if_neg (fun h2 => hxy h2.symm)]

/-- C3: the similarity score always lies in [0,1]; for well-shaped signatures
under a configuration with a nonzero weight total self-similarity is exactly
1; and the score is symmetric in its two signatures. -/
theorem c3_similarity_properties (w : SpecModel.SimilarityWeights)
    (a b : SpecModel.BehavioralSignature) :
    (0 ≤ SpecModel.similarity w a b ∧ SpecModel.similarity w a b ≤ 1) ∧
      (SpecModel.wellShaped w a →
        w.numeric.sum + w.categorical.sum + w.patternType ≠ 0 →
          SpecModel.similarity w a a = 1) ∧
      SpecModel.similarity w a b = SpecModel.similarity w b a := by
  have clamp01_mem : ∀ q : ℚ, 0 ≤ SpecModel.clamp01 q ∧ SpecModel.clamp01 q ≤ 1 := by
    intro q
    unfold SpecModel.clamp01
    exact ⟨le_max_left _ _, max_le (by norm_num) (min_le_left _ _)⟩
  refine ⟨?_, ?_, ?_⟩
  · simp only [SpecModel.similarity]
    split_ifs <;>
      first
        | exact clamp01_mem _
        | norm_num
  · intro hshape htot
    simp only [SpecModel.similarity]
    rw [if_neg htot, zipWith_numericCloseness_self, zipWith_natEq_self,
      sum_zipWith_mul_ones w.numeric a.numeric hshape.1,
      sum_zipWith_mul_ones w.categorical a.categorical hshape.2]
    simp only [if_true, mul_one]
    rw [div_self htot]
    unfold SpecModel.clamp01
    norm_num
  · simp only [SpecModel.similarity]
    rw [zipWith_numericCloseness_comm, zipWith_natEq_comm]
    have hpat : (if a.patternType = b.patternType then (1 : ℚ) else 0) =
        (if b.patternType = a.patternType then (1 : ℚ) else 0) := by
      by_cases h : a.patternType = b.patternType
      · rw [if_pos h, if_pos h.symm]
      · rw [if_neg h, if_neg (fun h2 => h h2.symm)]
    rw [hpat]

/-- Witness for C3: self-similarity 1 at a concrete configuration and signature. -/
theorem c3_similarity_witness :
    SpecModel.similarity ⟨[1], [1], 1⟩ ⟨[1 / 2], [3], "financial_phishing"⟩
      ⟨[1 / 2], [3], "financial_phishing"⟩ = 1 :=
  (c3_similarity_properties ⟨[1], [1], 1⟩ ⟨[1 / 2], [3], "financial_phishing"⟩
      ⟨[1 / 2], [3], "financial_phishing"⟩).2.1 (by decide)
    (by norm_num [List.sum_cons, List.sum_nil])

/-- C5 counterexample: unknown categorical values do not always map to the
catch-all 0 bucket — for a platform or claimed role naming an
Object.prototype property, the JavaScript bracket lookup returns the
inherited truthy member and the || 0 default never fires, so the extracted
id is not the 0 bucket. -/
theorem c5_counterexample :
    ¬ (∀ (message : String) (md : FeatureExtractor.Metadata),
        (∀ p, md.platform = some p → p ∉ ["linkedin", "gmail", "outlook"] →
          (FeatureExtractor.extract message md).platform_id =
            FeatureExtractor.CategoricalId.id 0) ∧
        ∀ c, md.claimedRole = some c →
          c ∉ ["recruiter", "investor", "friend", "coworker", "support",
            "delivery_service", "professional"] →
          (FeatureExtractor.extract message md).context_type_id =
            FeatureExtractor.CategoricalId.id 0) := by
  intro h
  have h2 := (h "hello" { platform := some "constructor" }).1 "constructor" rfl (by decide)
  exact absurd h2 (by decide)

/-- C5 (amended): feature extraction is total with a fixed-shape result on every
message and metadata object and degrades instead of erroring: a missing
account age, interaction count or file type yields the 0 default, a missing
platform or claimed role falls to the 0 bucket, and an unknown categorical
value falls to the 0 bucket unless it names an Object.prototype property, in
which case the bracket lookup's inherited truthy member is returned instead
of 0. -/
theorem c5_extract_defaults (message : String) (md : FeatureExtractor.Metadata) :
    (md.accountAge = none →
        (FeatureExtractor.extract message md).sender_account_age_days = 0) ∧
      (md.previousInteractions = none →
        (FeatureExtractor.extract message md).previous_interactions = 0) ∧
      (md.fileType = none →
        (FeatureExtractor.extract message md).file_extension_risk = 0) ∧
      (md.platform = none →
        (FeatureExtractor.extract message md).platform_id =
          FeatureExtractor.CategoricalId.id 0) ∧
      (∀ p, md.platform = some p → p ∉ ["linkedin", "gmail", "outlook"] →
        p ∉ FeatureExtractor.objectPrototypeProps →
        (FeatureExtractor.extract message md).platform_id =
          FeatureExtractor.CategoricalId.id 0) ∧
      (∀ p, md.platform = some p → p ∉ ["linkedin", "gmail", "outlook"] →
        p ∈ FeatureExtractor.objectPrototypeProps →
        (FeatureExtractor.extract message md).platform_id =
          FeatureExtractor.CategoricalId.inherited p) ∧
      (md.claimedRole = none →
        (FeatureExtractor.extract message md).context_type_id =
          FeatureExtractor.CategoricalId.id 0) ∧
      (∀ c, md.claimedRole = some c →
        c ∉ ["recruiter", "investor", "friend", "coworker", "support",
          "delivery_service", "professional"] →
        c ∉ FeatureExtractor.objectPrototypeProps →
        (FeatureExtractor.extract message md).context_type_id =
          FeatureExtractor.CategoricalId.id 0) ∧
      ∀ c, md.claimedRole = some c →
        c ∉ ["recruiter", "investor", "friend", "coworker", "support",
          "delivery_service", "professional"] →
        c ∈ FeatureExtractor.objectPrototypeProps →
        (FeatureExtractor.extract message md).context_type_id =
          FeatureExtractor.CategoricalId.inherited c := by
  refine ⟨?_, ?_, ?_, ?_, ?_, ?_, ?_, ?_, ?_⟩
  · intro h
    simp [FeatureExtractor.extract, FeatureExtractor.jsOr, h]
  · intro h
    simp [FeatureExtractor.extract, FeatureExtractor.jsOr, h]
  · intro h
    simp [FeatureExtractor.extract, FeatureExtractor.getExtensionRisk, h]
  · intro h
    simp [FeatureExtractor.extract, FeatureExtractor.platformToId, h]
  · intro p hp hk hproto
    have h0 : FeatureExtractor.platformToId (some p) =
        FeatureExtractor.CategoricalId.id 0 := by
      unfold FeatureExtractor.platformToId
      split <;> simp_all
    simp [FeatureExtractor.extract, hp, h0]
  · intro p hp hk hproto
    have h0 : FeatureExtractor.platformToId (some p) =
        FeatureExtractor.CategoricalId.inherited p := by
      unfold FeatureExtractor.platformToId
      split <;> simp_all
    simp [FeatureExtractor.extract, hp, h0]
  · intro h
    simp [FeatureExtractor.extract, FeatureExtractor.contextToId, h]
  · intro c hc hk hproto
    have h0 : FeatureExtractor.contextToId (some c) =
        FeatureExtractor.CategoricalId.id 0 := by
      unfold FeatureExtractor.contextToId
      split <;> simp_all
    simp [FeatureExtractor.extract, hc, h0]
  · intro c hc hk hproto
    have h0 : FeatureExtractor.contextToId (some c) =
        FeatureExtractor.CategoricalId.inherited c := by
      unfold FeatureExtractor.contextToId
      split <;> simp_all
    simp [FeatureExtractor.extract, hc, h0]

/-- Witness for C5 (amended): empty metadata falls to every default, and the
platform string naming constructor leaks the inherited member. -/
theorem c5_extract_witness :
    (FeatureExtractor.extract "hello" {}).sender_account_age_days = 0 ∧
      (FeatureExtractor.extract "hello" {}).previous_interactions = 0 ∧
      (FeatureExtractor.extract "hello" {}).file_extension_risk = 0 ∧
      (FeatureExtractor.extract "hello" {}).platform_id =
        FeatureExtractor.CategoricalId.id 0 ∧
      (FeatureExtractor.extract "hello" {}).context_type_id =
        FeatureExtractor.CategoricalId.id 0 ∧
      (FeatureExtractor.extract "hello" { platform := some "constructor" }).platform_id =
        FeatureExtractor.CategoricalId.inherited "constructor" := by
  obtain ⟨h1, h2, h3, h4, -, -, h7, -, -⟩ := c5_extract_defaults "hello" {}
  obtain ⟨-, -, -, -, -, h6, -, -, -⟩ :=
    c5_extract_defaults "hello" { platform := some "constructor" }
  exact ⟨h1 rfl, h2 rfl, h3 rfl, h4 rfl, h7 rfl,
    h6 "constructor" rfl (by decide) (by decide)⟩

/-- A successfully buffered transaction contains exactly the run's writes. -/
theorem bufferWrites_complete (ws : List SpecModel.RingWrite) (failAt : Option Nat) :
    ∀ (k : Nat) (buf : List SpecModel.RingWrite),
      SpecModel.bufferWrites ws failAt k = some buf → buf = ws := by
  induction ws with
  | nil =>
      intro k buf h
      unfold SpecModel.bufferWrites at h
      injection h with h2
      exact h2.symm
  | cons w ws ih =>
      intro k buf h
      unfold SpecModel.bufferWrites at h
      split_ifs at h
      cases hb : SpecModel.bufferWrites ws failAt (k + 1) with
      | none =>
          rw [hb] at h
          simp at h
      | some buf2 =>
          rw [hb] at h
          injection h with h2
          rw [ih (k + 1) buf2 hb] at h2
          exact h2.symm

/-- C7: a detection run is all-or-nothing — when no error is surfaced the
committed ring set is the previous set with every write of the run applied,
and when the repository becomes unavailable (or the run times out) mid-run
the previously committed ring set is left exactly unchanged. -/
theorem c7_run_all_or_nothing (db : List SpecModel.SpecRing)
    (writes : List SpecModel.RingWrite) (failAt : Option Nat) (e : SpecModel.RunError) :
    ((SpecModel.runDetection db writes failAt e).error = none →
        (SpecModel.runDetection db writes failAt e).committed =
          SpecModel.applyWrites db writes) ∧
      ((SpecModel.runDetection db writes failAt e).error ≠ none →
        (SpecModel.runDetection db writes failAt e).committed = db) := by
  unfold SpecModel.runDetection
  cases hb : SpecModel.bufferWrites writes failAt 0 with
  | none =>
      constructor
      · intro h
        simp at h
      · intro _
        rfl
  | some buf =>
      constructor
      · intro _
        show SpecModel.applyWrites db buf = SpecModel.applyWrites db writes
        rw [bufferWrites_complete writes failAt 0 buf hb]
      · intro h
        exact absurd rfl h

/-- Witness for C7: a run interrupted at its first write commits nothing. -/
theorem c7_run_witness :
    (SpecModel.runDetection [] [SpecModel.RingWrite.create 1 ["t1", "t2"]] (some 0)
        SpecModel.RunError.repositoryUnavailable).committed = [] :=
  (c7_run_all_or_nothing [] [SpecModel.RingWrite.create 1 ["t1", "t2"]] (some 0)
      SpecModel.RunError.repositoryUnavailable).2 (by decide)

/-- C8: anonymize is deterministic — under a fixed salt the same identifier can
only ever produce one token — and an empty or null identifier raises
InvalidIdentifierError and never returns a token. -/
theorem c8_anonymize_deterministic (salt : String) (identifier : Option String) :
    ((identifier = none ∨ identifier = some "") →
        SpecModel.anonymize salt identifier =
            Except.error SpecModel.AnonymizeError.invalidIdentifier ∧
          ∀ t, SpecModel.anonymize salt identifier ≠ Except.ok t) ∧
      ∀ t1 t2, SpecModel.anonymize salt identifier = Except.ok t1 →
        SpecModel.anonymize salt identifier = Except.ok t2 → t1 = t2 := by
  constructor
  · intro hbad
    rcases hbad with h | h
    · subst h
      refine ⟨rfl, ?_⟩
      intro t ht
      simp [SpecModel.anonymize] at ht
    · subst h
      refine ⟨rfl, ?_⟩
      intro t ht
      simp [SpecModel.anonymize] at ht
  · intro t1 t2 h1 h2
    exact Except.ok.inj (h1.symm.trans h2)

/-- Witness for C8: the null identifier is rejected under a concrete salt. -/
theorem c8_anonymize_witness :
    SpecModel.anonymize "epoch-salt" none =
      Except.error SpecModel.AnonymizeError.invalidIdentifier :=
  ((c8_anonymize_deterministic "epoch-salt" none).1 (Or.inl rfl)).1

set_option maxHeartbeats 2000000 in
/-- C4 counterexample: the transmitted traffic is not a function of the extracted
features alone — two messages differing only inside a URL extract identical
feature vectors, yet the analyzer's transmitted payloads differ, because the
raw URLs are posted to the verify-urls endpoint before the feature call. -/
theorem c4_counterexample :
    ¬ (∀ (m1 m2 : String) (md1 md2 : FeatureExtractor.Metadata) (resp : Option Bool),
        FeatureExtractor.extract m1 md1 = FeatureExtractor.extract m2 md2 →
          analyzeOutbound m1 md1 resp = analyzeOutbound m2 md2 resp) := by
  intro h
  have hfeat : FeatureExtractor.extract "see https://aaa.com now" {} =
      FeatureExtractor.extract "see https://abb.com now" {} := rfl
  have hout := h "see https://aaa.com now" "see https://abb.com now" {} {} none hfeat
  have h1 : analyzeOutbound "see https://aaa.com now" {} none =
      [Payload.verifyUrls ["https://aaa.com"],
        Payload.analyzeFeatures (FeatureExtractor.extract "see https://aaa.com now" {})] := rfl
  have h2 : analyzeOutbound "see https://abb.com now" {} none =
      [Payload.verifyUrls ["https://abb.com"],
        Payload.analyzeFeatures (FeatureExtractor.extract "see https://abb.com now" {})] := rfl
  rw [h1, h2] at hout
  simp at hout

/-- C4 (amended): the feature payload posted to the analyze-features endpoint is
exactly the extracted anonymized feature vector — a function only of the
features — but whenever the message contains URLs the client first posts
those URLs, verbatim substrings of the raw message, to the verify-urls
endpoint; only a URL-free message transmits nothing but its features. -/
theorem c4_amended (m : String) (md : FeatureExtractor.Metadata) (resp : Option Bool) :
    (FeatureExtractor.extractUrls m ≠ [] →
        (analyzeOutbound m md resp).head? =
          some (Payload.verifyUrls (FeatureExtractor.extractUrls m))) ∧
      (∀ f, Payload.analyzeFeatures f ∈ analyzeOutbound m md resp →
        f = FeatureExtractor.extract m md) ∧
      (FeatureExtractor.extractUrls m = [] →
        analyzeOutbound m md resp =
          [Payload.analyzeFeatures (FeatureExtractor.extract m md)]) := by
  refine ⟨?_, ?_, ?_⟩
  · intro hne
    simp only [analyzeOutbound]
    split_ifs with hlen hresp
    · rfl
    · rfl
    · have : FeatureExtractor.extractUrls m = [] := by
        cases hu : FeatureExtractor.extractUrls m with
        | nil => rfl
        | cons a l =>
            rw [hu] at hlen
            simp at hlen
      exact absurd this hne
  · intro f hf
    simp only [analyzeOutbound] at hf
    split_ifs at hf with hlen hresp
    · simp at hf
    · simp at hf
      exact hf
    · simp at hf
      exact hf
  · intro hnil
    simp only [analyzeOutbound, hnil]
    norm_num

/-- Witness for C4 (amended): the concrete message with a URL posts that URL
first. -/
theorem c4_amended_witness :
    (analyzeOutbound "see https://aaa.com now" {} none).head? =
      some (Payload.verifyUrls (FeatureExtractor.extractUrls "see https://aaa.com now")) :=
  (c4_amended "see https://aaa.com now" {} none).1 (by decide)

end FakeDetector
